import Mathlib

/-!
Verification of the pubsub-tui core: a shallow embedding of the
acknowledgment state machine (`internal/pubsub`, `ReceivedMessage`),
the subscription stream lifecycle (`Subscription`, `Model.startSubscription`
/ `Model.stopSubscription` in `internal/app/app.go`), the subscriber
region (`internal/components/subscriber/model.go`) and the dispatcher
(`Model.Update` in `internal/app/update.go`), together with proofs of the
specification's invariants I1-I3, the retention policy, auto-acknowledge,
focus routing, and the frame conditions on unrecognized events.

Go mutation is rendered as explicit state passing: each method on a
pointer receiver becomes a function returning the updated value.
Capability invocations (the ack/nack closures bound at delivery time, and
a handle's context-cancellation function) are instrumented with call
counters; `xFuncPresent : Bool` renders `xFunc != nil`.
-/

namespace PubsubTui

/-! ## pubsub.ReceivedMessage (source: the `pubsub` package, subscriber file) -/

/-- Embeds `pubsub.ReceivedMessage`.  `ackFuncPresent`/`nackFuncPresent`
render `ackFunc != nil` / `nackFunc != nil`; `ackCalls`/`nackCalls` count
invocations of the bound capabilities (the mutex only serializes access
and has no pure-state content). -/
structure ReceivedMessage where
  id : String
  data : String
  acked : Bool
  ackFuncPresent : Bool
  nackFuncPresent : Bool
  ackCalls : Nat
  nackCalls : Nat
deriving DecidableEq, Repr

/-- `func (m *ReceivedMessage) Ack()`: under the lock, if not yet acked and
an ack capability is bound, invoke it and set `acked`. -/
def ReceivedMessage.Ack (m : ReceivedMessage) : ReceivedMessage :=
  if !m.acked && m.ackFuncPresent then
    { m with ackCalls := m.ackCalls + 1, acked := true }
  else m

/-- `func (m *ReceivedMessage) Nack()`: under the lock, if not yet acked and
a nack capability is bound, invoke it; `acked` is never written. -/
def ReceivedMessage.Nack (m : ReceivedMessage) : ReceivedMessage :=
  if !m.acked && m.nackFuncPresent then
    { m with nackCalls := m.nackCalls + 1 }
  else m

/-- `func (m *ReceivedMessage) IsAcked() bool`. -/
def ReceivedMessage.IsAcked (m : ReceivedMessage) : Bool :=
  m.acked

/-- `func (m *ReceivedMessage) SetAcked(acked bool)`: unconditionally
overwrites the flag ("for display purposes"). -/
def ReceivedMessage.SetAcked (m : ReceivedMessage) (acked : Bool) : ReceivedMessage :=
  { m with acked := acked }

/-- One call of the acknowledgment API on a message: `Ack()` or `Nack()`. -/
inductive AckOp
  | ack
  | nack
deriving DecidableEq, Repr

/-- Apply one `Ack()`/`Nack()` call. -/
def ReceivedMessage.applyOp (m : ReceivedMessage) : AckOp → ReceivedMessage
  | .ack => m.Ack
  | .nack => m.Nack

/-- Apply a sequence of `Ack()`/`Nack()` calls, first element first. -/
def ReceivedMessage.applyOps (m : ReceivedMessage) (ops : List AckOp) : ReceivedMessage :=
  ops.foldl ReceivedMessage.applyOp m

/-! ## pubsub.Subscription and its lifecycle (same source file) -/

/-- Embeds `pubsub.Subscription`.  `cancelPresent` renders `cancel != nil`,
`cancelCalls` counts invocations of the stored context-cancellation
capability.  The delivery/error channels are owned by the concurrency
layer; events received from them enter the model as dispatcher `Event`s. -/
structure Subscription where
  subscriptionName : String
  running : Bool
  cancelPresent : Bool
  cancelCalls : Nat
deriving DecidableEq, Repr

/-- `func (c *Client) Subscribe(subscriptionName string) *Subscription`:
a fresh handle, not running, no cancellation capability stored yet. -/
def Subscribe (subscriptionName : String) : Subscription :=
  { subscriptionName := subscriptionName
    running := false
    cancelPresent := false
    cancelCalls := 0 }

/-- `func (s *Subscription) Start(ctx)`: returns early if already running;
otherwise sets `running` and stores the cancellation capability produced by
`context.WithCancel`.  (The receive goroutine itself lives in the
concurrency layer.) -/
def Subscription.Start (s : Subscription) : Subscription :=
  if s.running then s
  else { s with running := true, cancelPresent := true }

/-- `func (s *Subscription) Stop()`: invokes the stored cancellation
capability if present and clears it, then clears `running`. -/
def Subscription.Stop (s : Subscription) : Subscription :=
  if s.cancelPresent then
    { s with cancelCalls := s.cancelCalls + 1, cancelPresent := false, running := false }
  else { s with running := false }

/-- `func (s *Subscription) IsRunning() bool`. -/
def Subscription.IsRunning (s : Subscription) : Bool :=
  s.running

/-! ## Keyboard and event model

Keys the core routes: the global bindings of `internal/app` (quit, help,
tab/shift-tab, panel digits) and the regional bindings of the components.
Printable keys are carried as their rune. -/

inductive Key
  | tab
  | shiftTab
  | esc
  | enter
  | up
  | down
  | ctrlU
  | ctrlD
  | ctrlC
  | char (c : Char)
deriving DecidableEq, Repr

/-- `keys.Quit` of `internal/app`: "q" or "ctrl+c". -/
def Key.isQuit : Key → Bool
  | .char c => c = 'q'
  | .ctrlC => true
  | _ => false

/-- `keys.Help`: "?". -/
def Key.isHelp : Key → Bool
  | .char c => c = '?'
  | _ => false

/-- A key matching a single printable rune. -/
def Key.isChar (k : Key) (c : Char) : Bool :=
  match k with
  | .char d => d = c
  | _ => false

/-- Up bindings "up"/"k" shared by the list panels. -/
def Key.isUp : Key → Bool
  | .up => true
  | .char c => c = 'k'
  | _ => false

/-- Down bindings "down"/"j" shared by the list panels. -/
def Key.isDown : Key → Bool
  | .down => true
  | .char c => c = 'j'
  | _ => false

/-! ## The dispatcher's event universe

One constructor per message type the modeled code paths construct or
match.  `Event.unknown` stands for any message type matched by no case of
any type switch in the program (the Bubble Tea widgets — list, viewport,
textinput, spinner — react only to their own message types, so such a
message passes through every widget unchanged).  Message types outside
the modeled claims (window sizing, topic/subscription load results,
publisher file handling) are omitted from the universe rather than
conflated with `unknown`. -/

inductive Event
  | key (k : Key)
  | messageReceived (msg : ReceivedMessage)
  | subscriptionError (err : String)
  | topicSelected (topicName : String)
  | subscriptionSelected (subscriptionName : String) (topicName : String)
  | stopSubscriptionRequest
  | createTopicRequest (topicName : String)
  | deleteTopicRequest (topicName : String)
  | createSubscriptionRequest (subscriptionName : String) (topicName : String)
  | deleteSubscriptionRequest (subscriptionName : String)
  | logMsg (line : String)
  | spinnerTick
  | unknown
deriving DecidableEq, Repr

/-- A `tea.Cmd`: pending asynchronous work yielding one event.  `emit e`
is a closure returning the message `e`; `pollMessages sub` is the
self-re-arming receive on `sub`'s delivery/error channels; the API
constructors are the one-shot client calls; `quitProgram` is `tea.Quit`.
A `nil` command is the absence of an element, so command batches are
lists. -/
inductive Task
  | emit (e : Event)
  | pollMessages (sub : Subscription)
  | loadTopics
  | loadSubscriptions
  | createTopicApi (topicName : String)
  | deleteTopicApi (topicName : String)
  | createSubscriptionApi (subscriptionName : String) (topicName : String)
  | deleteSubscriptionApi (subscriptionName : String)
  | quitProgram
deriving DecidableEq, Repr

/-! ## The subscriber region (source: `internal/components/subscriber`)

The Bubble Tea list widget is modeled as the retained message slice plus a
cursor index; with no regex filter active (the only situation the claims
exercise) the widget's items are exactly `messages`, so the cursor indexes
`messages` directly.  Messages are heap-shared in Go; acknowledging the
selected message is rendered by writing the updated message back at its
index.  The viewport/textinput widgets and rendering are display-only and
carry no modeled state beyond `filterText`; the spinner is a frame
counter. -/

namespace Subscriber

structure Model where
  messages : List ReceivedMessage
  cursor : Nat
  focused : Bool
  filtering : Bool
  filterText : String
  autoAck : Bool
  subscriptionName : String
  topicName : String
  connected : Bool
  spinner : Nat
deriving DecidableEq, Repr

/-- `subscriber.New()`. -/
def new : Model :=
  { messages := []
    cursor := 0
    focused := false
    filtering := false
    filterText := ""
    autoAck := false
    subscriptionName := ""
    topicName := ""
    connected := false
    spinner := 0 }

/-- `func (m *Model) SetFocused(focused bool)` — note: it only records the
flag; the filter sub-mode is not touched. -/
def Model.SetFocused (m : Model) (focused : Bool) : Model :=
  { m with focused := focused }

/-- `func (m Model) IsFocused() bool`. -/
def Model.IsFocused (m : Model) : Bool :=
  m.focused

/-- `func (m *Model) SetSubscription(name, topic string)`. -/
def Model.SetSubscription (m : Model) (name topic : String) : Model :=
  { m with
    subscriptionName := name
    topicName := topic
    connected := true
    messages := []
    cursor := 0 }

/-- `func (m *Model) ClearSubscription()`. -/
def Model.ClearSubscription (m : Model) : Model :=
  { m with
    subscriptionName := ""
    topicName := ""
    connected := false
    messages := []
    cursor := 0 }

/-- `func (m *Model) AddMessage(msg *pubsub.ReceivedMessage)`: auto-ack if
enabled, append newest last, cap retention at 100 by dropping the oldest,
auto-select the newest (cursor to bottom). -/
def Model.AddMessage (m : Model) (msg : ReceivedMessage) : Model :=
  let msg := if m.autoAck then msg.Ack else msg
  let msgs := m.messages ++ [msg]
  let msgs := if msgs.length > 100 then msgs.drop 1 else msgs
  { m with messages := msgs, cursor := msgs.length - 1 }

/-- `func (m Model) SelectedMessage() *pubsub.ReceivedMessage`: the item
under the list cursor, `none` when out of range. -/
def Model.SelectedMessage (m : Model) : Option ReceivedMessage :=
  m.messages.get? m.cursor

/-- `func (m *Model) ToggleAutoAck()`. -/
def Model.ToggleAutoAck (m : Model) : Model :=
  { m with autoAck := !m.autoAck }

/-- `func (m Model) IsAutoAck() bool`. -/
def Model.IsAutoAck (m : Model) : Bool :=
  m.autoAck

/-- `func (m Model) IsConnected() bool`. -/
def Model.IsConnected (m : Model) : Bool :=
  m.connected

/-- `func (m Model) MessageCount() int`. -/
def Model.MessageCount (m : Model) : Nat :=
  m.messages.length

/-- `func (m *Model) AckSelected() bool`: acknowledge the selected message
if there is one and it is not yet acked; report whether anything changed.
(`applyFilter`/`updateDetailView` only refresh the display.) -/
def Model.AckSelected (m : Model) : Bool × Model :=
  match m.messages.get? m.cursor with
  | some msg =>
      if !msg.IsAcked then
        (true, { m with messages := m.messages.set m.cursor msg.Ack })
      else
        (false, m)
  | none => (false, m)

/-- `func (m Model) IsInputActive() bool` — the filter entry field. -/
def Model.IsInputActive (m : Model) : Bool :=
  m.filtering

/-- The list widget's `CursorUp` (clamped at the top). -/
def Model.cursorUp (m : Model) : Model :=
  { m with cursor := m.cursor - 1 }

/-- The list widget's `CursorDown` (clamped at the bottom). -/
def Model.cursorDown (m : Model) : Model :=
  if m.cursor + 1 < m.messages.length then { m with cursor := m.cursor + 1 } else m

/-- Message ID truncation for the acknowledgment log line
(`truncateID` in the subscriber source). -/
def truncateId (id : String) : String :=
  if id.length ≤ 8 then id else (id.take 8) ++ "..."

/-- `handleFilterInput`: Esc clears and leaves filter mode, Enter keeps the
filter and leaves, any rune is appended to the filter input. -/
def Model.handleFilterInput (m : Model) (k : Key) : Model × List Task :=
  match k with
  | .esc => ({ m with filtering := false, filterText := "" }, [])
  | .enter => ({ m with filtering := false }, [])
  | .char c => ({ m with filterText := m.filterText.push c }, [])
  | _ => (m, [])

/-- `handleNavigation`: the subscriber panel's normal-mode keys. -/
def Model.handleNavigation (m : Model) (k : Key) : Model × List Task :=
  if k.isChar '/' then
    ({ m with filtering := true }, [])
  else if k.isChar 'a' then
    let r := m.AckSelected
    if r.1 then
      match r.2.SelectedMessage with
      | some msg =>
          (r.2.cursorDown,
           [Task.emit (.logMsg ("Acknowledged message: " ++ truncateId msg.id))])
      | none => (r.2, [])
    else (r.2, [])
  else if k.isChar 'A' then
    let m := m.ToggleAutoAck
    let status := if m.autoAck then "enabled" else "disabled"
    (m, [Task.emit (.logMsg ("Auto-ack " ++ status))])
  else if k.isUp then
    (m.cursorUp, [])
  else if k.isDown then
    (m.cursorDown, [])
  else if k = .ctrlU || k = .ctrlD then
    (m, [])
  else
    (m, [])

/-- `func (m Model) Update(msg tea.Msg) (Model, tea.Cmd)` of the
subscriber panel.  Messages matching no case fall through to the widgets:
the spinner advances on its tick when connected (re-arming the tick); the
viewport and list ignore everything else. -/
def Model.update (m : Model) (e : Event) : Model × List Task :=
  match e with
  | .key k =>
      if m.filtering then m.handleFilterInput k else m.handleNavigation k
  | .messageReceived msg => (m.AddMessage msg, [])
  | .subscriptionError err =>
      (m, [Task.emit (.logMsg ("Subscription error: " ++ err))])
  | .subscriptionSelected name topic =>
      (m.SetSubscription name topic, [Task.emit .spinnerTick])
  | .spinnerTick =>
      if m.connected then
        ({ m with spinner := m.spinner + 1 }, [Task.emit .spinnerTick])
      else (m, [])
  | _ => (m, [])

end Subscriber

/-! ## The topics region (source: `internal/components/topics`)

The topic list's content and cursor come from load results outside the
modeled event universe, so the list-selected item is carried as an
abstract `listSelection` that the modeled events never change; the
create/filter text inputs are strings.  Status rendering, sizes and the
regex evaluation of `applyFilter` are display-only. -/

namespace Topics

inductive Mode
  | normal
  | filter
  | create
  | confirmDelete
deriving DecidableEq, Repr

structure Model where
  focused : Bool
  mode : Mode
  filterText : String
  createText : String
  loading : Bool
  spinner : Nat
  statusMsg : String
  statusError : Bool
  listSelection : Option String
  selectedTopic : String
deriving DecidableEq, Repr

/-- `topics.New()` (loading starts true). -/
def new : Model :=
  { focused := false
    mode := .normal
    filterText := ""
    createText := ""
    loading := true
    spinner := 0
    statusMsg := ""
    statusError := false
    listSelection := none
    selectedTopic := "" }

/-- `func (m *Model) SetFocused(focused bool)`: on losing focus the panel
resets to normal mode and blurs its inputs. -/
def Model.SetFocused (m : Model) (focused : Bool) : Model :=
  let m := { m with focused := focused }
  if !focused then { m with mode := .normal } else m

/-- `func (m Model) IsLoading() bool`. -/
def Model.IsLoading (m : Model) : Bool :=
  m.loading

/-- `func (m Model) SelectedTopic() *common.TopicData`. -/
def Model.SelectedTopic (m : Model) : Option String :=
  m.listSelection

/-- `func (m *Model) SetSelectedTopic(name string)`. -/
def Model.SetSelectedTopic (m : Model) (name : String) : Model :=
  { m with selectedTopic := name }

/-- `func (m *Model) ClearStatus()`. -/
def Model.ClearStatus (m : Model) : Model :=
  { m with statusMsg := "", statusError := false }

/-- `func (m Model) IsInputActive() bool`. -/
def Model.IsInputActive (m : Model) : Bool :=
  m.mode = .filter || m.mode = .create

/-- `handleFilterInput` of the topics panel. -/
def Model.handleFilterInput (m : Model) (k : Key) : Model × List Task :=
  match k with
  | .esc => ({ m with mode := .normal, filterText := "" }, [])
  | .enter => ({ m with mode := .normal }, [])
  | .char c => ({ m with filterText := m.filterText.push c }, [])
  | _ => (m, [])

/-- `handleCreateInput` of the topics panel. -/
def Model.handleCreateInput (m : Model) (k : Key) : Model × List Task :=
  match k with
  | .esc => ({ m with mode := .normal, createText := "" }, [])
  | .enter =>
      if m.createText = "" then (m, [])
      else
        ({ m with mode := .normal, createText := "" },
         [Task.emit (.createTopicRequest m.createText)])
  | .char c => ({ m with createText := m.createText.push c }, [])
  | _ => (m, [])

/-- `handleConfirmDelete` of the topics panel. -/
def Model.handleConfirmDelete (m : Model) (k : Key) : Model × List Task :=
  if k.isChar 'y' || k.isChar 'Y' then
    match m.listSelection with
    | none => ({ m with mode := .normal }, [])
    | some name =>
        ({ m with mode := .normal }, [Task.emit (.deleteTopicRequest name)])
  else if k.isChar 'n' || k.isChar 'N' || k = .esc then
    ({ m with mode := .normal }, [])
  else (m, [])

/-- `handleNavigation` of the topics panel: status cleared on any key,
then filter/create/delete/select; cursor moves are widget-internal. -/
def Model.handleNavigation (m : Model) (k : Key) : Model × List Task :=
  let m := m.ClearStatus
  if k.isChar '/' then
    ({ m with mode := .filter }, [])
  else if k.isChar 'n' then
    ({ m with mode := .create }, [])
  else if k.isChar 'd' then
    (if m.SelectedTopic.isSome then { m with mode := .confirmDelete } else m, [])
  else if k = .enter then
    match m.SelectedTopic with
    | some name => (m, [Task.emit (.topicSelected name)])
    | none => (m, [])
  else
    (m, [])

/-- `func (m Model) Update(msg tea.Msg) (Model, tea.Cmd)` of the topics
panel, restricted to the modeled universe: keys dispatch by mode, every
other modeled message falls through to the list widget, which ignores
them. -/
def Model.update (m : Model) (e : Event) : Model × List Task :=
  match e with
  | .key k =>
      match m.mode with
      | .filter => m.handleFilterInput k
      | .create => m.handleCreateInput k
      | .confirmDelete => m.handleConfirmDelete k
      | .normal => m.handleNavigation k
  | _ => (m, [])

end Topics

/-! ## The subscriptions region (source: `internal/components/subscriptions`)

Same modeling conventions as the topics panel; `listSelection` carries the
list-selected subscription as (name, topic name). -/

namespace Subscriptions

inductive Mode
  | normal
  | filter
  | create
  | confirmDelete
deriving DecidableEq, Repr

structure Model where
  focused : Bool
  mode : Mode
  filterText : String
  createText : String
  selectedTopic : String
  loading : Bool
  spinner : Nat
  statusMsg : String
  statusError : Bool
  activeSubscription : String
  listSelection : Option (String × String)
deriving DecidableEq, Repr

/-- `subscriptions.New()` (loading starts true). -/
def new : Model :=
  { focused := false
    mode := .normal
    filterText := ""
    createText := ""
    selectedTopic := ""
    loading := true
    spinner := 0
    statusMsg := ""
    statusError := false
    activeSubscription := ""
    listSelection := none }

/-- `func (m *Model) SetFocused(focused bool)`: on losing focus the panel
resets to normal mode and blurs its inputs. -/
def Model.SetFocused (m : Model) (focused : Bool) : Model :=
  let m := { m with focused := focused }
  if !focused then { m with mode := .normal } else m

/-- `func (m Model) IsLoading() bool`. -/
def Model.IsLoading (m : Model) : Bool :=
  m.loading

/-- `func (m *Model) SetTopicFilter(topicName string)`. -/
def Model.SetTopicFilter (m : Model) (topicName : String) : Model :=
  { m with selectedTopic := topicName }

/-- `func (m *Model) ClearTopicFilter()`. -/
def Model.ClearTopicFilter (m : Model) : Model :=
  { m with selectedTopic := "" }

/-- `func (m Model) SelectedSubscription() *common.SubscriptionData`. -/
def Model.SelectedSubscription (m : Model) : Option (String × String) :=
  m.listSelection

/-- `func (m *Model) SetStatus(msg string, isError bool)`. -/
def Model.SetStatus (m : Model) (msg : String) (isError : Bool) : Model :=
  { m with statusMsg := msg, statusError := isError }

/-- `func (m *Model) ClearStatus()`. -/
def Model.ClearStatus (m : Model) : Model :=
  { m with statusMsg := "", statusError := false }

/-- `func (m *Model) SetActiveSubscription(name string)`. -/
def Model.SetActiveSubscription (m : Model) (name : String) : Model :=
  { m with activeSubscription := name }

/-- `func (m Model) GetActiveSubscription() string`. -/
def Model.GetActiveSubscription (m : Model) : String :=
  m.activeSubscription

/-- `func (m Model) IsActiveSubscription(name string) bool`. -/
def Model.IsActiveSubscription (m : Model) (name : String) : Bool :=
  m.activeSubscription ≠ "" && m.activeSubscription = name

/-- `func (m Model) IsInputActive() bool`. -/
def Model.IsInputActive (m : Model) : Bool :=
  m.mode = .filter || m.mode = .create

/-- `handleFilterInput` of the subscriptions panel. -/
def Model.handleFilterInput (m : Model) (k : Key) : Model × List Task :=
  match k with
  | .esc => ({ m with mode := .normal, filterText := "" }, [])
  | .enter => ({ m with mode := .normal }, [])
  | .char c => ({ m with filterText := m.filterText.push c }, [])
  | _ => (m, [])

/-- `handleCreateInput` of the subscriptions panel. -/
def Model.handleCreateInput (m : Model) (k : Key) : Model × List Task :=
  match k with
  | .esc => ({ m with mode := .normal, createText := "" }, [])
  | .enter =>
      if m.createText = "" then (m, [])
      else if m.selectedTopic = "" then
        ({ (m.SetStatus "Select a topic first" true) with
            mode := .normal, createText := "" }, [])
      else
        ({ m with mode := .normal, createText := "" },
         [Task.emit (.createSubscriptionRequest m.createText m.selectedTopic)])
  | .char c => ({ m with createText := m.createText.push c }, [])
  | _ => (m, [])

/-- `handleConfirmDelete` of the subscriptions panel. -/
def Model.handleConfirmDelete (m : Model) (k : Key) : Model × List Task :=
  if k.isChar 'y' || k.isChar 'Y' then
    match m.listSelection with
    | none => ({ m with mode := .normal }, [])
    | some sel =>
        ({ m with mode := .normal }, [Task.emit (.deleteSubscriptionRequest sel.1)])
  else if k.isChar 'n' || k.isChar 'N' || k = .esc then
    ({ m with mode := .normal }, [])
  else (m, [])

/-- `handleNavigation` of the subscriptions panel. -/
def Model.handleNavigation (m : Model) (k : Key) : Model × List Task :=
  let m := m.ClearStatus
  if k = .esc then
    if m.activeSubscription ≠ "" then (m, [Task.emit .stopSubscriptionRequest])
    else (m, [])
  else if k.isChar '/' then
    ({ m with mode := .filter }, [])
  else if k.isChar 'n' then
    if m.selectedTopic = "" then
      (m.SetStatus "Select a topic first (go to Topics panel)" true, [])
    else ({ m with mode := .create }, [])
  else if k.isChar 'd' then
    (if m.SelectedSubscription.isSome then { m with mode := .confirmDelete } else m, [])
  else if k.isChar 'c' then
    (m.ClearTopicFilter, [])
  else if k = .enter then
    match m.SelectedSubscription with
    | some sel =>
        if m.IsActiveSubscription sel.1 then
          (m, [Task.emit .stopSubscriptionRequest])
        else
          (m, [Task.emit (.subscriptionSelected sel.1 sel.2)])
    | none => (m, [])
  else
    (m, [])

/-- `func (m Model) Update(msg tea.Msg) (Model, tea.Cmd)` of the
subscriptions panel over the modeled universe: keys dispatch by mode,
`TopicSelectedMsg` installs the topic filter, and fall-through messages
reach the spinner (advancing on its tick while loading) and the list. -/
def Model.update (m : Model) (e : Event) : Model × List Task :=
  match e with
  | .key k =>
      match m.mode with
      | .filter => m.handleFilterInput k
      | .create => m.handleCreateInput k
      | .confirmDelete => m.handleConfirmDelete k
      | .normal => m.handleNavigation k
  | .topicSelected topicName => (m.SetTopicFilter topicName, [])
  | .spinnerTick =>
      if m.loading then ({ m with spinner := m.spinner + 1 }, [Task.emit .spinnerTick])
      else (m, [])
  | _ => (m, [])

end Subscriptions

/-! ## The publisher region (source: `internal/components/publisher`)

Only the pieces the dispatcher touches are modeled: the focus flag and
variables-input focus area (`SetFocused`, `IsInputActive`) and the target
topic.  The panel's own key handling (template navigation, variable
editing, the publish trigger) is panel-specific CRUD/display logic that no
modeled claim exercises; no modeled non-key event is matched by its type
switch, so those fall through its widgets unchanged. -/

namespace Publisher

structure Model where
  focused : Bool
  focusAreaVariables : Bool
  variablesInputFocused : Bool
  targetTopic : String
deriving DecidableEq, Repr

/-- `publisher.New()` (focus area starts on the file list). -/
def new : Model :=
  { focused := false
    focusAreaVariables := false
    variablesInputFocused := false
    targetTopic := "" }

/-- `func (m *Model) SetFocused(focused bool)`: focuses the variables
input only when panel-focused with the variables area active. -/
def Model.SetFocused (m : Model) (focused : Bool) : Model :=
  let m := { m with focused := focused }
  if focused && m.focusAreaVariables then { m with variablesInputFocused := true }
  else { m with variablesInputFocused := false }

/-- `func (m *Model) SetTargetTopic(topic string)`. -/
def Model.SetTargetTopic (m : Model) (topic : String) : Model :=
  { m with targetTopic := topic }

/-- `func (m Model) IsInputActive() bool`. -/
def Model.IsInputActive (m : Model) : Bool :=
  m.focusAreaVariables

/-- The publisher panel's `Update`, restricted to the modeled universe:
none of the modeled events is matched by its type switch (its own
messages — file loads, publish results — lie outside the universe), and
no modeled claim dispatches a key while the publisher is focused, so
every modeled event passes through unchanged. -/
def Model.update (m : Model) (e : Event) : Model × List Task :=
  match e with
  | _ => (m, [])

end Publisher

/-! ## The activity region (source: `internal/components/activity`) -/

namespace Activity

/-- The activity log panel: the entry list is the modeled state (the
viewport is rendering). -/
structure Model where
  entries : List String
deriving DecidableEq, Repr

/-- `activity.New()`. -/
def new : Model :=
  { entries := [] }

/-- `func (m *Model) AddLog(msg common.LogMsg)`: append the entry. -/
def Model.AddLog (m : Model) (line : String) : Model :=
  { m with entries := m.entries ++ [line] }

/-- `func (m Model) Update(msg tea.Msg) (Model, tea.Cmd)`: log messages
are appended, everything else goes to the viewport, which ignores the
modeled events. -/
def Model.update (m : Model) (e : Event) : Model × List Task :=
  match e with
  | .logMsg line => (m.AddLog line, [])
  | _ => (m, [])

end Activity

/-! ## Log message constructors (source: `internal/components/common/messages.go`)

A `common.LogMsg` is rendered as its level tag plus text (the timestamp
is wall-clock display data). -/

/-- `common.Info`. -/
def logInfo (s : String) : Event := .logMsg ("INFO: " ++ s)

/-- `common.Error`. -/
def logFailure (s : String) : Event := .logMsg ("ERROR: " ++ s)

/-- `common.Network`. -/
def logNetwork (s : String) : Event := .logMsg ("NETWORK: " ++ s)

/-! ## The application aggregate and dispatcher (source: `internal/app`)

`App.Model` is the aggregate root.  `subscriptionCancelPresent` renders
`subscriptionCancel != nil` (the application-level context cancel).
`stoppedHandles` is ghost state: the final values of the `Subscription`
heap objects the application has released (in Go they simply become
unreachable); it lets the model state invariant I1 — at most one handle
running — quantify over every handle ever created.  Window dimensions and
the `ready` flag only drive layout and are omitted with `WindowSizeMsg`. -/

/-- `app.FocusPanel`. -/
inductive FocusPanel
  | topics
  | subscriptions
  | publisher
  | subscriber
deriving DecidableEq, Repr

namespace App

structure Model where
  topics : Topics.Model
  subscriptions : Subscriptions.Model
  publisher : Publisher.Model
  subscriber : Subscriber.Model
  activity : Activity.Model
  activeSubscription : Option Subscription
  subscriptionCancelPresent : Bool
  focus : FocusPanel
  showHelp : Bool
  selectedTopic : String
  selectedSubscription : String
  stoppedHandles : List Subscription
deriving DecidableEq, Repr

/-- `app.New(...)`: initial aggregate, focus on the topics panel. -/
def new : Model :=
  { topics := Topics.new
    subscriptions := Subscriptions.new
    publisher := Publisher.new
    subscriber := Subscriber.new
    activity := Activity.new
    activeSubscription := none
    subscriptionCancelPresent := false
    focus := .topics
    showHelp := false
    selectedTopic := ""
    selectedSubscription := ""
    stoppedHandles := [] }

/-- `func (m *Model) stopSubscription()`: stop and drop the active handle
(its final value moves to the ghost list), then cancel and drop the
application-level context cancel. -/
def Model.stopSubscription (m : Model) : Model :=
  let m :=
    match m.activeSubscription with
    | some s =>
        { m with
          activeSubscription := none
          stoppedHandles := m.stoppedHandles ++ [s.Stop] }
    | none => m
  { m with subscriptionCancelPresent := false }

/-- `func (m *Model) pollMessages() tea.Cmd`: `nil` when no active handle,
otherwise the blocking receive bound to the *current* handle. -/
def Model.pollMessages (m : Model) : List Task :=
  match m.activeSubscription with
  | some sub => [Task.pollMessages sub]
  | none => []

/-- `func (m *Model) startSubscription(subName, topicName string) tea.Cmd`:
stop-then-start — stop any existing subscription, create and start a new
handle, install the fresh context cancel, and arm the first poll.
(`topicName` is accepted and unused, as in the source.) -/
def Model.startSubscription (m : Model) (subName _topicName : String) : Model × List Task :=
  let m := m.stopSubscription
  let sub := (Subscribe subName).Start
  let m := { m with activeSubscription := some sub, subscriptionCancelPresent := true }
  (m, m.pollMessages)

/-- Ghost observation for I1: how many handles ever created are running. -/
def Model.runningHandleCount (m : Model) : Nat :=
  m.stoppedHandles.countP (fun s => s.running)
    + (match m.activeSubscription with
       | some s => if s.running then 1 else 0
       | none => 0)

/-- `func (m *Model) updateFocus()`: pushes the focus flag into every
panel. -/
def Model.updateFocus (m : Model) : Model :=
  { m with
    topics := m.topics.SetFocused (m.focus == .topics)
    subscriptions := m.subscriptions.SetFocused (m.focus == .subscriptions)
    publisher := m.publisher.SetFocused (m.focus == .publisher)
    subscriber := m.subscriber.SetFocused (m.focus == .subscriber) }

/-- `func (m *Model) cycleFocus()`. -/
def Model.cycleFocus (m : Model) : Model :=
  let next : FocusPanel :=
    match m.focus with
    | .topics => .subscriptions
    | .subscriptions => .publisher
    | .publisher => .subscriber
    | .subscriber => .topics
  ({ m with focus := next }).updateFocus

/-- `func (m *Model) cycleFocusReverse()`. -/
def Model.cycleFocusReverse (m : Model) : Model :=
  let next : FocusPanel :=
    match m.focus with
    | .topics => .subscriber
    | .subscriptions => .topics
    | .publisher => .subscriptions
    | .subscriber => .publisher
  ({ m with focus := next }).updateFocus

/-- `func (m *Model) routeToFocused(msg tea.Msg) tea.Cmd`. -/
def Model.routeToFocused (m : Model) (e : Event) : Model × List Task :=
  match m.focus with
  | .topics =>
      let r := m.topics.update e
      ({ m with topics := r.1 }, r.2)
  | .subscriptions =>
      let r := m.subscriptions.update e
      ({ m with subscriptions := r.1 }, r.2)
  | .publisher =>
      let r := m.publisher.update e
      ({ m with publisher := r.1 }, r.2)
  | .subscriber =>
      let r := m.subscriber.update e
      ({ m with subscriber := r.1 }, r.2)

/-- `func (m *Model) routeKeyToFocused(msg tea.KeyMsg) tea.Cmd`: same
routing, specialized to key events. -/
def Model.routeKeyToFocused (m : Model) (k : Key) : Model × List Task :=
  match m.focus with
  | .topics =>
      let r := m.topics.update (.key k)
      ({ m with topics := r.1 }, r.2)
  | .subscriptions =>
      let r := m.subscriptions.update (.key k)
      ({ m with subscriptions := r.1 }, r.2)
  | .publisher =>
      let r := m.publisher.update (.key k)
      ({ m with publisher := r.1 }, r.2)
  | .subscriber =>
      let r := m.subscriber.update (.key k)
      ({ m with subscriber := r.1 }, r.2)

/-- The `default:` arm of the application `Update` type switch: panels
needing passive ticks are updated even when unfocused (subscriber while
connected, topics/subscriptions while loading), then the message is
routed to the focused panel. -/
def Model.updateDefaultCase (m : Model) (e : Event) : Model × List Task :=
  let r1 :=
    if m.subscriber.IsConnected && !(m.focus == .subscriber) then m.subscriber.update e
    else (m.subscriber, [])
  let m := { m with subscriber := r1.1 }
  let r2 :=
    if m.topics.IsLoading && !(m.focus == .topics) then m.topics.update e
    else (m.topics, [])
  let m := { m with topics := r2.1 }
  let r3 :=
    if m.subscriptions.IsLoading && !(m.focus == .subscriptions) then m.subscriptions.update e
    else (m.subscriptions, [])
  let m := { m with subscriptions := r3.1 }
  let r4 := m.routeToFocused e
  (r4.1, r1.2 ++ r2.2 ++ r3.2 ++ r4.2)

/-- The key arm of the application `Update`: help popup closes on any
key; global bindings (quit, help, tab/shift-tab, panel digits — the
digits only when no input field is active) are matched before regional
dispatch; everything else goes to the focused panel. -/
def Model.updateKey (m : Model) (k : Key) : Model × List Task :=
  if m.showHelp then ({ m with showHelp := false }, [])
  else
    let inputActive := m.topics.IsInputActive || m.subscriptions.IsInputActive
      || m.publisher.IsInputActive || m.subscriber.IsInputActive
    if k.isQuit then (m.stopSubscription, [Task.quitProgram])
    else if k.isHelp then ({ m with showHelp := true }, [])
    else if k = .tab then (m.cycleFocus, [])
    else if k = .shiftTab then (m.cycleFocusReverse, [])
    else if k.isChar '1' && !inputActive then
      (({ m with focus := .topics }).updateFocus, [])
    else if k.isChar '2' && !inputActive then
      (({ m with focus := .subscriptions }).updateFocus, [])
    else if k.isChar '3' && !inputActive then
      (({ m with focus := .publisher }).updateFocus, [])
    else if k.isChar '4' && !inputActive then
      (({ m with focus := .subscriber }).updateFocus, [])
    else m.routeKeyToFocused k

/-- `func (m Model) Update(msg tea.Msg) (tea.Model, tea.Cmd)` — the
Dispatcher: one pure transition per event, yielding the new aggregate and
the batch of emitted tasks, in the source's append order. -/
def Model.update (m : Model) (e : Event) : Model × List Task :=
  match e with
  | .key k => m.updateKey k
  | .topicSelected topicName =>
      let m := { m with selectedTopic := topicName }
      let m := { m with topics := m.topics.SetSelectedTopic topicName }
      let m := { m with subscriptions := m.subscriptions.SetTopicFilter topicName }
      let m := { m with publisher := m.publisher.SetTargetTopic topicName }
      (m, [Task.emit (logInfo ("Selected topic: " ++ topicName))])
  | .subscriptionSelected subName topicName =>
      let stoppedPrevious :=
        m.selectedSubscription ≠ "" && m.selectedSubscription ≠ subName
      let m := if stoppedPrevious then m.stopSubscription else m
      let m := { m with selectedSubscription := subName }
      let m := { m with subscriptions := m.subscriptions.SetActiveSubscription subName }
      let r := m.subscriber.update (.subscriptionSelected subName topicName)
      let m := { m with subscriber := r.1 }
      let r2 := m.startSubscription subName topicName
      let m := r2.1
      -- The Go closure reads m.selectedSubscription when the command
      -- runs, after the reassignment above, so it names the new
      -- subscription.
      let stopLog : List Task :=
        if stoppedPrevious then
          [Task.emit (logInfo ("Stopped previous subscription: " ++ subName))]
        else []
      (m, stopLog ++ r.2 ++ r2.2
            ++ [Task.emit (logNetwork ("Started subscription: " ++ subName))])
  | .stopSubscriptionRequest =>
      let subName := m.selectedSubscription
      let m := m.stopSubscription
      let m := { m with selectedSubscription := "" }
      let m := { m with subscriptions := m.subscriptions.SetActiveSubscription "" }
      let m := { m with subscriber := m.subscriber.ClearSubscription }
      let tasks : List Task :=
        if subName ≠ "" then [Task.emit (logInfo ("Stopped subscription: " ++ subName))]
        else []
      (m, tasks)
  | .createTopicRequest topicName =>
      (m, [Task.createTopicApi topicName,
           Task.emit (logNetwork ("Creating topic: " ++ topicName))])
  | .deleteTopicRequest topicName =>
      (m, [Task.deleteTopicApi topicName,
           Task.emit (logNetwork ("Deleting topic: " ++ topicName))])
  | .createSubscriptionRequest subName topicName =>
      (m, [Task.createSubscriptionApi subName topicName,
           Task.emit (logNetwork ("Creating subscription: " ++ subName))])
  | .deleteSubscriptionRequest subName =>
      (m, [Task.deleteSubscriptionApi subName,
           Task.emit (logNetwork ("Deleting subscription: " ++ subName))])
  | .messageReceived msg =>
      let r := m.subscriber.update (.messageReceived msg)
      let m := { m with subscriber := r.1 }
      let poll := if m.activeSubscription.isSome then m.pollMessages else []
      (m, r.2 ++ poll)
  | .subscriptionError err =>
      let r := m.subscriber.update (.subscriptionError err)
      ({ m with subscriber := r.1 }, r.2)
  | .logMsg line =>
      let r := m.activity.update (.logMsg line)
      ({ m with activity := r.1 }, r.2)
  | .spinnerTick => m.updateDefaultCase .spinnerTick
  | .unknown => m.updateDefaultCase .unknown

/-- Serial dispatch of an event sequence (tasks run outside the
dispatcher; their produced events would re-enter as later list
elements). -/
def Model.updateAll (m : Model) (es : List Event) : Model :=
  es.foldl (fun s e => (s.update e).1) m

end App

/-! ## Harness definitions: event sequences and concrete states -/

/-- Feed a sequence of deliveries through `AddMessage`, first element
first (the dispatcher does exactly this for consecutive
`MessageReceivedMsg`s). -/
def Subscriber.Model.addAll (s : Subscriber.Model) (msgs : List ReceivedMessage) :
    Subscriber.Model :=
  msgs.foldl Subscriber.Model.AddMessage s

/-- A synthetic pending delivery, as the receive callback builds it: both
capabilities bound, not yet acknowledged. -/
def mkDelivery (i : Nat) : ReceivedMessage :=
  { id := toString i
    data := "\x7b\x7d"
    acked := false
    ackFuncPresent := true
    nackFuncPresent := true
    ackCalls := 0
    nackCalls := 0 }

/-- The 101 synthetic deliveries m1..m101 of the retention scenario. -/
def msgs101 : List ReceivedMessage :=
  (List.range 101).map mkDelivery

/-- A fresh pending message with bound capabilities. -/
def exampleMsgFresh : ReceivedMessage :=
  { id := "m1"
    data := "\x7b\x7d"
    acked := false
    ackFuncPresent := true
    nackFuncPresent := true
    ackCalls := 0
    nackCalls := 0 }

/-- A message already acknowledged (capability invoked once). -/
def exampleMsgAcked : ReceivedMessage :=
  { id := "m1"
    data := "\x7b\x7d"
    acked := true
    ackFuncPresent := true
    nackFuncPresent := true
    ackCalls := 1
    nackCalls := 0 }

/-- A message with no acknowledge capability bound (`ackFunc == nil`). -/
def exampleMsgNoCap : ReceivedMessage :=
  { id := "m1"
    data := "\x7b\x7d"
    acked := false
    ackFuncPresent := false
    nackFuncPresent := true
    ackCalls := 0
    nackCalls := 0 }

/-- A subscriber panel whose selected message is already acknowledged. -/
def exampleSubscriberAcked : Subscriber.Model :=
  { Subscriber.new with messages := [exampleMsgAcked], cursor := 0 }

/-- A subscriber panel with auto-acknowledge enabled. -/
def exampleSubscriberAuto : Subscriber.Model :=
  { Subscriber.new with autoAck := true }

/-- The application right after a subscription was selected and its
stream started: the active handle is running with its cancellation
capability stored and not yet invoked. -/
def exampleAppRunning : App.Model :=
  (App.new.update (Event.subscriptionSelected "sub-A" "topic-A")).1

/-- The application after jumping to the publisher panel. -/
def exampleAppPublisherFocus : App.Model :=
  App.new.updateAll [Event.key (.char '4'), Event.key (.char '3')]

/-- Focus scenario: jump to the subscriber panel, open its filter entry,
then Tab away.  Focus now rests on the topics panel while the
subscriber's filter sub-mode is still active. -/
def exampleAppFilterThenTab : App.Model :=
  App.new.updateAll [Event.key (.char '4'), Event.key (.char '/'), Event.key .tab]

/-- Stale-stream scenario: start `sub-A`, then stop it.  The active
handle is gone, the subscriber region is cleared — but the stopped
stream's poll task may still deliver one last buffered message. -/
def exampleAppStopped : App.Model :=
  App.new.updateAll [Event.subscriptionSelected "sub-A" "topic-A",
                     Event.stopSubscriptionRequest]

/-! ## Lemmas about the acknowledgment state machine -/

/-- After `Ack()`, the flag is the old flag or-ed with capability
presence. -/
lemma ReceivedMessage.acked_Ack (m : ReceivedMessage) :
    (m.Ack).acked = (m.acked || m.ackFuncPresent) := by
  cases hm : m.acked <;> cases hf : m.ackFuncPresent <;>
    simp [ReceivedMessage.Ack, hm, hf]

/-- Once acknowledged, `Ack()` is the identity. -/
lemma ReceivedMessage.Ack_of_acked {m : ReceivedMessage} (h : m.acked = true) :
    m.Ack = m := by
  simp [ReceivedMessage.Ack, h]

/-- Once acknowledged, `Nack()` is the identity. -/
lemma ReceivedMessage.Nack_of_acked {m : ReceivedMessage} (h : m.acked = true) :
    m.Nack = m := by
  simp [ReceivedMessage.Nack, h]

/-- Once acknowledged, neither `Ack()` nor `Nack()` changes anything. -/
lemma ReceivedMessage.applyOp_of_acked (m : ReceivedMessage) (op : AckOp)
    (h : m.acked = true) : m.applyOp op = m := by
  cases op
  · exact ReceivedMessage.Ack_of_acked h
  · exact ReceivedMessage.Nack_of_acked h

/-- A second `Ack()` after any first one is the identity. -/
lemma ReceivedMessage.Ack_Ack (m : ReceivedMessage) : m.Ack.Ack = m.Ack := by
  cases hm : m.acked
  · cases hf : m.ackFuncPresent
    · have h : m.Ack = m := by simp [ReceivedMessage.Ack, hm, hf]
      rw [h]
      exact h
    · have h : (m.Ack).acked = true := by
        rw [ReceivedMessage.acked_Ack, hm, hf]
        decide
      exact ReceivedMessage.Ack_of_acked h
  · rw [ReceivedMessage.Ack_of_acked hm, ReceivedMessage.Ack_of_acked hm]

/-- Unfolding one step of an operation sequence. -/
lemma ReceivedMessage.applyOps_cons (m : ReceivedMessage) (op : AckOp)
    (ops : List AckOp) : m.applyOps (op :: ops) = (m.applyOp op).applyOps ops := rfl

/-- Over any `Ack()`/`Nack()` sequence the ack capability is invoked at
most once more, and not at all if the message is already acknowledged. -/
lemma ReceivedMessage.ackCalls_applyOps_le (ops : List AckOp) :
    ∀ m : ReceivedMessage,
      (m.applyOps ops).ackCalls ≤ m.ackCalls + (if m.acked then 0 else 1) := by
  induction ops with
  | nil =>
      intro m
      simp [ReceivedMessage.applyOps]
  | cons op ops ih =>
      intro m
      rw [ReceivedMessage.applyOps_cons]
      refine le_trans (ih (m.applyOp op)) ?_
      cases hm : m.acked
      · cases op
        · cases hf : m.ackFuncPresent <;>
            simp [ReceivedMessage.applyOp, ReceivedMessage.Ack, hm, hf]
        · cases hf : m.nackFuncPresent <;>
            simp [ReceivedMessage.applyOp, ReceivedMessage.Nack, hm, hf]
      · rw [ReceivedMessage.applyOp_of_acked m op hm]
        simp [hm]

/-- Acknowledgment is monotone along any `Ack()`/`Nack()` sequence. -/
lemma ReceivedMessage.acked_applyOps_mono (ops : List AckOp) :
    ∀ m : ReceivedMessage, m.acked = true → (m.applyOps ops).acked = true := by
  induction ops with
  | nil =>
      intro m h
      simpa [ReceivedMessage.applyOps] using h
  | cons op ops ih =>
      intro m h
      rw [ReceivedMessage.applyOps_cons, ReceivedMessage.applyOp_of_acked m op h]
      exact ih m h

/-! ## Lemmas about the subscriber region -/

/-- One `AddMessage` keeps the retained slice at 100 or fewer. -/
lemma Subscriber.AddMessage_length_le (s : Subscriber.Model) (msg : ReceivedMessage)
    (h : s.messages.length ≤ 100) :
    (s.AddMessage msg).messages.length ≤ 100 := by
  have hgen : ∀ x : ReceivedMessage,
      (if (s.messages ++ [x]).length > 100
       then (s.messages ++ [x]).drop 1 else s.messages ++ [x]).length ≤ 100 := by
    intro x
    by_cases hlen : (s.messages ++ [x]).length > 100
    · simp only [hlen, if_pos, List.length_drop]
      simp only [List.length_append, List.length_singleton] at hlen ⊢
      omega
    · simp only [hlen, ite_false]
      simp only [List.length_append, List.length_singleton, gt_iff_lt, not_lt] at hlen ⊢
      omega
  simp only [Subscriber.Model.AddMessage]
  exact hgen _

/-- Feeding any delivery sequence keeps the retained slice at 100 or
fewer. -/
lemma Subscriber.addAll_length_le (msgs : List ReceivedMessage) :
    ∀ s : Subscriber.Model, s.messages.length ≤ 100 →
      (s.addAll msgs).messages.length ≤ 100 := by
  induction msgs with
  | nil =>
      intro s h
      simpa [Subscriber.Model.addAll] using h
  | cons x xs ih =>
      intro s h
      exact ih (s.AddMessage x) (Subscriber.AddMessage_length_le s x h)

/-- The element just appended stays last after the 100-cap, hence is
the one under the moved cursor. -/
lemma Subscriber.capped_get_last {α : Type} (l : List α) (x : α) :
    (if (l ++ [x]).length > 100 then (l ++ [x]).drop 1 else l ++ [x]).get?
      ((if (l ++ [x]).length > 100 then (l ++ [x]).drop 1 else l ++ [x]).length - 1)
      = some x := by
  by_cases h : (l ++ [x]).length > 100
  · cases l with
    | nil => simp at h
    | cons a t =>
        simp only [h, if_pos]
        have hdrop : ((a :: t) ++ [x]).drop 1 = t ++ [x] := rfl
        rw [hdrop]
        have hlen : (t ++ [x]).length - 1 = t.length := by simp
        rw [hlen]
        rw [List.get?_eq_getElem?]
        exact List.getElem?_concat_length t x
  · simp only [h, if_neg, ite_false]
    have hlen : (l ++ [x]).length - 1 = l.length := by simp
    rw [hlen]
    rw [List.get?_eq_getElem?]
    exact List.getElem?_concat_length l x

/-! ## Claim theorems -/

/-- C1.  For every `ReceivedMessage` and every sequence of `Ack()` and
`Nack()` calls on it, the bound acknowledge capability is invoked at most
once; a second `Ack()` after a successful one is a no-op that changes
nothing; and `AckSelected` returns false ("no change") when the selected
message is already acknowledged. -/
theorem ack_capability_invoked_at_most_once
    (m : ReceivedMessage) (ops : List AckOp)
    (s : Subscriber.Model) (msg : ReceivedMessage)
    (h0 : m.ackCalls = 0)
    (h1 : s.SelectedMessage = some msg)
    (h2 : msg.IsAcked = true) :
    (m.applyOps ops).ackCalls ≤ 1
    ∧ m.Ack.Ack = m.Ack
    ∧ s.AckSelected.1 = false := by
  refine ⟨?_, ReceivedMessage.Ack_Ack m, ?_⟩
  · have hle := ReceivedMessage.ackCalls_applyOps_le ops m
    rw [h0] at hle
    refine le_trans hle ?_
    cases hm : m.acked <;> simp [hm]
  · rw [Subscriber.Model.SelectedMessage] at h1
    rw [Subscriber.Model.AckSelected, h1]
    simp [h2]

/-- Witness for C1 at a fresh message, the sequence
Ack();Nack();Ack(), and a panel whose selected message is already
acknowledged. -/
theorem ack_capability_invoked_at_most_once_witness :
    (exampleMsgFresh.applyOps [AckOp.ack, AckOp.nack, AckOp.ack]).ackCalls ≤ 1
    ∧ exampleMsgFresh.Ack.Ack = exampleMsgFresh.Ack
    ∧ exampleSubscriberAcked.AckSelected.1 = false :=
  ack_capability_invoked_at_most_once exampleMsgFresh [AckOp.ack, AckOp.nack, AckOp.ack]
    exampleSubscriberAcked exampleMsgAcked rfl rfl rfl

/-- C2.  When a subscription stream is running, starting a new
subscription performs stop-then-start: afterward the new handle is the
single running one among every handle ever created (I1), and the prior
handle's cancellation capability has been invoked exactly once. -/
theorem start_while_running_stops_prior_once
    (st : App.Model) (h : Subscription) (subName topicName : String)
    (hact : st.activeSubscription = some h)
    (hrun : h.running = true)
    (hcp : h.cancelPresent = true)
    (hcc : h.cancelCalls = 0)
    (hstopped : ∀ s ∈ st.stoppedHandles, s.running = false) :
    (st.startSubscription subName topicName).1.runningHandleCount = 1
    ∧ (st.startSubscription subName topicName).1.activeSubscription
        = some ((Subscribe subName).Start)
    ∧ ((Subscribe subName).Start).running = true
    ∧ (st.startSubscription subName topicName).1.stoppedHandles
        = st.stoppedHandles ++ [h.Stop]
    ∧ h.Stop.running = false
    ∧ h.Stop.cancelCalls = 1 := by
  have hstoprun : h.Stop.running = false := by
    rw [Subscription.Stop]
    split <;> rfl
  have hstopcc : h.Stop.cancelCalls = 1 := by
    rw [Subscription.Stop, if_pos hcp, hcc]
  have hnewrun : ((Subscribe subName).Start).running = true := by
    rfl
  refine ⟨?_, ?_, hnewrun, ?_, hstoprun, hstopcc⟩
  · simp only [App.Model.startSubscription, App.Model.stopSubscription,
      App.Model.runningHandleCount, hact]
    rw [List.countP_append]
    have hz : st.stoppedHandles.countP (fun s => s.running) = 0 :=
      List.countP_eq_zero.mpr (fun a ha => by simp [hstopped a ha])
    rw [hz]
    simp [hstoprun, hnewrun]
  · simp [App.Model.startSubscription, App.Model.stopSubscription, hact]
  · simp [App.Model.startSubscription, App.Model.stopSubscription, hact]

/-- Witness for C2: the application with `sub-A` running starts
`sub-B`. -/
theorem start_while_running_stops_prior_once_witness :
    (exampleAppRunning.startSubscription "sub-B" "topic-B").1.runningHandleCount = 1
    ∧ (exampleAppRunning.startSubscription "sub-B" "topic-B").1.activeSubscription
        = some ((Subscribe "sub-B").Start)
    ∧ ((Subscribe "sub-B").Start).running = true
    ∧ (exampleAppRunning.startSubscription "sub-B" "topic-B").1.stoppedHandles
        = exampleAppRunning.stoppedHandles ++ [((Subscribe "sub-A").Start).Stop]
    ∧ ((Subscribe "sub-A").Start).Stop.running = false
    ∧ ((Subscribe "sub-A").Start).Stop.cancelCalls = 1 :=
  start_while_running_stops_prior_once exampleAppRunning ((Subscribe "sub-A").Start)
    "sub-B" "topic-B" (by decide) rfl rfl rfl (by decide)

set_option maxRecDepth 20000 in
/-- C3.  From any region state within the cap, the retained slice never
exceeds 100 deliveries; feeding the synthetic deliveries m1..m101 into a
fresh region retains exactly the last 100 — the first is evicted, the
last is present. -/
theorem retention_cap_100_evicts_oldest
    (s : Subscriber.Model) (msgs : List ReceivedMessage)
    (h : s.messages.length ≤ 100) :
    (s.addAll msgs).messages.length ≤ 100
    ∧ (Subscriber.new.addAll msgs101).messages = msgs101.drop 1
    ∧ mkDelivery 0 ∉ (Subscriber.new.addAll msgs101).messages
    ∧ mkDelivery 100 ∈ (Subscriber.new.addAll msgs101).messages := by
  refine ⟨Subscriber.addAll_length_le msgs s h, ?_, ?_, ?_⟩
  · decide
  · decide
  · decide

/-- Witness for C3: the fresh region fed m1..m101. -/
theorem retention_cap_100_evicts_oldest_witness :
    (Subscriber.new.addAll msgs101).messages.length ≤ 100
    ∧ (Subscriber.new.addAll msgs101).messages = msgs101.drop 1
    ∧ mkDelivery 0 ∉ (Subscriber.new.addAll msgs101).messages
    ∧ mkDelivery 100 ∈ (Subscriber.new.addAll msgs101).messages :=
  retention_cap_100_evicts_oldest Subscriber.new msgs101 (by decide)

/-- C4 counterexample.  The claim "no operation reverses acked = true
back to false" fails: `SetAcked(false)` — public API of
`ReceivedMessage`, exercised by the repository's own test
`TestReceivedMessage_SetAcked` — reverses an acknowledged message to
pending. -/
theorem ackstate_reversal_counterexample :
    exampleMsgAcked.IsAcked = true
    ∧ (exampleMsgAcked.SetAcked false).IsAcked = false := by
  decide

/-- C4 amended.  AckState is monotonic under the acknowledge/reject
operations: once acknowledged, no sequence of `Ack()`/`Nack()` calls
returns the message to pending.  (The display-purpose setter
`SetAcked(false)` is the sole exception.) -/
theorem ackstate_monotonic_under_ack_nack
    (m : ReceivedMessage) (ops : List AckOp) (h : m.acked = true) :
    (m.applyOps ops).acked = true :=
  ReceivedMessage.acked_applyOps_mono ops m h

/-- Witness for the amended C4 at an acknowledged message and the
sequence Nack();Ack();Nack(). -/
theorem ackstate_monotonic_under_ack_nack_witness :
    (exampleMsgAcked.applyOps [AckOp.nack, AckOp.ack, AckOp.nack]).acked = true :=
  ackstate_monotonic_under_ack_nack exampleMsgAcked [AckOp.nack, AckOp.ack, AckOp.nack] rfl

/-- C7.  `Nack()` leaves the AckState unchanged in all cases, and once
the message is acknowledged `Nack()` has no effect at all — in
particular the bound reject capability is not invoked. -/
theorem nack_preserves_ackstate (m : ReceivedMessage) :
    (m.Nack).acked = m.acked
    ∧ (m.acked = true → m.Nack = m) := by
  constructor
  · rw [ReceivedMessage.Nack]
    split <;> rfl
  · exact fun h => ReceivedMessage.Nack_of_acked h

/-- Witness for C7 at an acknowledged message. -/
theorem nack_preserves_ackstate_witness :
    (exampleMsgAcked.Nack).acked = exampleMsgAcked.acked
    ∧ exampleMsgAcked.Nack = exampleMsgAcked :=
  ⟨(nack_preserves_ackstate exampleMsgAcked).1,
   (nack_preserves_ackstate exampleMsgAcked).2 rfl⟩

/-- C10.  A message whose acknowledge capability is nil is untouched by
`Ack()`: nothing is invoked and a pending message stays pending, so it
can never become acknowledged through `Ack()`. -/
theorem ack_without_capability_noop (m : ReceivedMessage)
    (h : m.ackFuncPresent = false) :
    m.Ack = m
    ∧ (m.acked = false → (m.Ack).IsAcked = false) := by
  have hid : m.Ack = m := by
    simp [ReceivedMessage.Ack, h]
  exact ⟨hid, fun h2 => by rw [hid, ReceivedMessage.IsAcked, h2]⟩

/-- Witness for C10 at a pending message without capabilities. -/
theorem ack_without_capability_noop_witness :
    exampleMsgNoCap.Ack = exampleMsgNoCap
    ∧ (exampleMsgNoCap.Ack).IsAcked = false :=
  ⟨(ack_without_capability_noop exampleMsgNoCap rfl).1,
   (ack_without_capability_noop exampleMsgNoCap rfl).2 rfl⟩

/-- C6.  With auto-acknowledge enabled, a newly delivered message (its
capability bound at delivery time) is acknowledged by `AddMessage`
itself, before display: the auto-selected message is its acknowledged
form.  Toggling the mode changes no stored message, only the flag. -/
theorem autoack_acknowledges_on_delivery
    (s : Subscriber.Model) (msg : ReceivedMessage)
    (h1 : s.autoAck = true) (h2 : msg.ackFuncPresent = true) :
    (s.AddMessage msg).SelectedMessage = some msg.Ack
    ∧ (msg.Ack).IsAcked = true
    ∧ ∀ s2 : Subscriber.Model,
        (s2.ToggleAutoAck).messages = s2.messages
        ∧ (s2.ToggleAutoAck).autoAck = !s2.autoAck := by
  refine ⟨?_, ?_, ?_⟩
  · simp only [Subscriber.Model.AddMessage, Subscriber.Model.SelectedMessage, h1,
      ite_true]
    exact Subscriber.capped_get_last s.messages msg.Ack
  · rw [ReceivedMessage.IsAcked, ReceivedMessage.acked_Ack, h2]
    simp
  · intro s2
    exact ⟨rfl, rfl⟩

/-- Witness for C6: delivery into an auto-acknowledge panel. -/
theorem autoack_acknowledges_on_delivery_witness :
    (exampleSubscriberAuto.AddMessage exampleMsgFresh).SelectedMessage
        = some exampleMsgFresh.Ack
    ∧ (exampleMsgFresh.Ack).IsAcked = true
    ∧ ∀ s2 : Subscriber.Model,
        (s2.ToggleAutoAck).messages = s2.messages
        ∧ (s2.ToggleAutoAck).autoAck = !s2.autoAck :=
  autoack_acknowledges_on_delivery exampleSubscriberAuto exampleMsgFresh rfl rfl

/-- C8.  An event recognized by neither the global handlers nor any
region's handler leaves the whole application state unchanged and emits
no tasks. -/
theorem unrecognized_event_is_noop (m : App.Model) :
    m.update Event.unknown = (m, []) := by
  show m.updateDefaultCase Event.unknown = (m, [])
  rw [App.Model.updateDefaultCase]
  cases hf : m.focus <;>
    (simp [Subscriber.Model.update, Topics.Model.update, Subscriptions.Model.update,
       Publisher.Model.update, App.Model.routeToFocused, hf]
     rw [← hf])

/-- C5 counterexample.  A Delivery arriving after the stream was stopped
is not discarded: dispatching it still mutates the subscriber region (the
stale message is appended to the cleared panel), so "dispatching such a
stale event never changes the subscriber region's state" is false — and
no handle-identity comparison exists, since `MessageReceivedMsg` carries
no handle at all. -/
theorem stale_delivery_not_discarded_counterexample :
    exampleAppStopped.activeSubscription = none
    ∧ exampleAppStopped.subscriber.messages = []
    ∧ (exampleAppStopped.update (Event.messageReceived (mkDelivery 7))).1.subscriber.messages
        ≠ exampleAppStopped.subscriber.messages := by
  refine ⟨by decide, by decide, ?_⟩
  decide

/-- C5 amended.  Events carry no handle identity and the dispatcher
performs no identity comparison: a Delivery dispatched after the stream
is stopped is still applied to the subscriber region through
`AddMessage`; only re-arming is suppressed, by a nil check of the
current active handle — with no active handle, no poll task is emitted.
A stale StreamError likewise is not filtered: it leaves the subscriber
region unchanged and emits only its log task, without re-arming. -/
theorem stale_event_dispatch_behavior
    (st : App.Model) (msg : ReceivedMessage) (err : String)
    (h : st.activeSubscription = none) :
    (st.update (Event.messageReceived msg)).1.subscriber = st.subscriber.AddMessage msg
    ∧ (st.update (Event.messageReceived msg)).2 = []
    ∧ (st.update (Event.subscriptionError err)).1 = st
    ∧ (st.update (Event.subscriptionError err)).2
        = [Task.emit (Event.logMsg ("Subscription error: " ++ err))] := by
  refine ⟨?_, ?_, ?_, ?_⟩
  · simp [App.Model.update, Subscriber.Model.update]
  · simp [App.Model.update, Subscriber.Model.update, h]
  · simp [App.Model.update, Subscriber.Model.update]
  · simp [App.Model.update, Subscriber.Model.update]

/-- Witness for the amended C5 at the concrete stopped application. -/
theorem stale_event_dispatch_behavior_witness :
    (exampleAppStopped.update (Event.messageReceived (mkDelivery 7))).1.subscriber
        = exampleAppStopped.subscriber.AddMessage (mkDelivery 7)
    ∧ (exampleAppStopped.update (Event.messageReceived (mkDelivery 7))).2 = []
    ∧ (exampleAppStopped.update (Event.subscriptionError "stream closed")).1
        = exampleAppStopped
    ∧ (exampleAppStopped.update (Event.subscriptionError "stream closed")).2
        = [Task.emit (Event.logMsg ("Subscription error: " ++ "stream closed"))] :=
  stale_event_dispatch_behavior exampleAppStopped (mkDelivery 7) "stream closed"
    (by decide)

/-- C9 counterexample.  Transient sub-modes are not reset when focus
enters a region: open the subscriber's filter entry, Tab away (focus
rests on topics), Shift-Tab back — focus re-enters the subscriber with
the filter sub-mode still active, so the newly focused region does not
begin in its normal mode. -/
theorem focus_reentry_filter_mode_counterexample :
    exampleAppFilterThenTab.focus = FocusPanel.topics
    ∧ exampleAppFilterThenTab.subscriber.filtering = true
    ∧ (exampleAppFilterThenTab.update (Event.key Key.shiftTab)).1.focus
        = FocusPanel.subscriber
    ∧ (exampleAppFilterThenTab.update (Event.key Key.shiftTab)).1.subscriber.filtering
        = true := by
  refine ⟨by decide, by decide, by decide, by decide⟩

/-- C9 amended.  The sub-mode reset happens on focus loss, not on entry,
and only for the topics and subscriptions panels: pushing focus into the
panels resets an unfocused panel's mode to normal, while the
subscriber's filter sub-mode is never changed by focus movement and so
persists into the next time the subscriber is entered. -/
theorem submode_reset_on_focus_loss (m : App.Model) :
    (m.updateFocus).subscriber.filtering = m.subscriber.filtering
    ∧ (m.focus ≠ FocusPanel.topics → (m.updateFocus).topics.mode = Topics.Mode.normal)
    ∧ (m.focus ≠ FocusPanel.subscriptions →
        (m.updateFocus).subscriptions.mode = Subscriptions.Mode.normal) := by
  refine ⟨rfl, ?_, ?_⟩
  · intro hne
    have hb : (m.focus == FocusPanel.topics) = false := by
      cases hf : m.focus <;> simp_all
    simp [App.Model.updateFocus, Topics.Model.SetFocused, hb]
  · intro hne
    have hb : (m.focus == FocusPanel.subscriptions) = false := by
      cases hf : m.focus <;> simp_all
    simp [App.Model.updateFocus, Subscriptions.Model.SetFocused, hb]

/-- Witness for the amended C9 at the publisher-focused application. -/
theorem submode_reset_on_focus_loss_witness :
    (exampleAppPublisherFocus.updateFocus).subscriber.filtering
        = exampleAppPublisherFocus.subscriber.filtering
    ∧ (exampleAppPublisherFocus.updateFocus).topics.mode = Topics.Mode.normal
    ∧ (exampleAppPublisherFocus.updateFocus).subscriptions.mode
        = Subscriptions.Mode.normal :=
  ⟨(submode_reset_on_focus_loss exampleAppPublisherFocus).1,
   (submode_reset_on_focus_loss exampleAppPublisherFocus).2.1 (by decide),
   (submode_reset_on_focus_loss exampleAppPublisherFocus).2.2 (by decide)⟩

end PubsubTui
